import Mathlib

/-!
Shallow embedding of the Soundscape prompt-control core: the
`PromptController` element (drag clamp and weight/level/CC
conversions), the `PromptDjMidi` collection controller (add/remove of
prompts, CC counter, background gradients) and the `LevelSelector`
element (halo scale, dot clicks). JavaScript number arithmetic on the
quantities involved is modelled over `ℚ`, with `Math.round` made
explicit; JavaScript `Map` objects are modelled as insertion-ordered
association lists; dispatched DOM events are modelled as explicit lists
of emitted payloads.
-/

namespace Soundscape

/-- JavaScript `Math.round`: floor of the argument plus one half
(round half toward positive infinity). -/
def jround (x : ℚ) : ℤ := ⌊x + 1/2⌋

/-- The `PromptController.level` getter:
`Math.round(this.prompt.weight * 2.5)`. -/
def weightToLevel (weight : ℚ) : ℤ := jround (weight * 2.5)

/-- Weight assignment in `PromptController.updateLevel`:
`this.prompt.weight = newLevel / 2.5`. -/
def levelToWeight (level : ℤ) : ℚ := (level : ℚ) / 2.5

/-- The cc-message handler in `PromptController.connectedCallback`:
`Math.round((value / 127) * 5)`. -/
def ccToLevel (value : ℤ) : ℤ := jround ((value : ℚ) / 127 * 5)

/-- One axis of the drag constraint in `PromptController.handlePointerMove`:
`Math.max(half, Math.min(requested, extent - half))`. -/
def clampAxis (requested half extent : ℚ) : ℚ :=
  max half (min requested (extent - half))

/-- The two-axis clamp of `PromptController.handlePointerMove`, applied to the
requested position with the element half extents and the parent extents. -/
def clampPos (reqX reqY halfW halfH cw ch : ℚ) : ℚ × ℚ :=
  (clampAxis reqX halfW cw, clampAxis reqY halfH ch)

/-- Constant `MIN_HALO_SCALE` of `LevelSelector`. -/
def MIN_HALO_SCALE : ℚ := 1

/-- Constant `MAX_HALO_SCALE` of `LevelSelector`. -/
def MAX_HALO_SCALE : ℚ := 2.2

/-- Constant `HALO_LEVEL_MODIFIER` of `LevelSelector`. -/
def HALO_LEVEL_MODIFIER : ℚ := 1

/-- The halo scale computed in `LevelSelector.render`: starts at
`MIN_HALO_SCALE` and, when `level > 0`, adds
`((level-1)/4) * (MAX_HALO_SCALE - MIN_HALO_SCALE)` and then
`audioLevel * HALO_LEVEL_MODIFIER`. -/
def haloScale (level : ℤ) (audioLevel : ℚ) : ℚ :=
  if 0 < level then
    MIN_HALO_SCALE + (((level : ℚ) - 1) / 4) * (MAX_HALO_SCALE - MIN_HALO_SCALE)
      + audioLevel * HALO_LEVEL_MODIFIER
  else MIN_HALO_SCALE

/-- The halo display property in `LevelSelector.render`: shown (`block`)
exactly when `level > 0`, hidden (`none`) otherwise. -/
def haloDisplay (level : ℤ) : String := if 0 < level then "block" else "none"

/-- The audio level `PromptController.render` passes to its
`level-selector`: forced to 0 when the prompt is filtered. -/
def controllerAudioLevel (filtered : Bool) (audioLevel : ℚ) : ℚ :=
  if filtered then 0 else audioLevel

/-- The color `PromptController.render` passes to its `level-selector`:
gray when the prompt is filtered. -/
def controllerHaloColor (filtered : Bool) (color : String) : String :=
  if filtered then "#888" else color

/-- The argument of `selectLevel` for a click on dot `i` in
`LevelSelector.render`: `this.level === i ? 0 : i`. -/
def dotClickLevel (level i : ℤ) : ℤ := if level = i then 0 else i

/-- The events dispatched by `LevelSelector.selectLevel`: a single
level-changed event carrying `newLevel`. -/
def selectLevelEvents (newLevel : ℤ) : List ℤ := [newLevel]

/-- The level-changed events dispatched by clicking dot `i` when the
current level is `level`. -/
def dotClickEvents (level i : ℤ) : List ℤ := selectLevelEvents (dotClickLevel level i)

/-- A prompt record, as in `types.ts`. -/
structure Prompt where
  promptId : String
  text : String
  weight : ℚ
  cc : ℕ
  color : String
  x : ℚ
  y : ℚ

/-- A palette entry (`DefaultPrompt` in `PromptDjMidi`). -/
structure DefaultPrompt where
  color : String
  text : String

/-- JavaScript `Map.has` on a string-keyed insertion-ordered map. -/
def mapHas (m : List (String × Prompt)) (k : String) : Bool :=
  m.any (fun e => e.1 == k)

/-- JavaScript `Map.get`. -/
def mapGet (m : List (String × Prompt)) (k : String) : Option Prompt :=
  (m.find? (fun e => e.1 == k)).map Prod.snd

/-- JavaScript `Map.set`: replaces the value of an existing key in place,
otherwise appends a new entry. -/
def mapSet (m : List (String × Prompt)) (k : String) (v : Prompt) :
    List (String × Prompt) :=
  if mapHas m k then
    m.map (fun e => if e.1 == k then (k, v) else e)
  else m ++ [(k, v)]

/-- JavaScript `Map.delete`. -/
def mapDelete (m : List (String × Prompt)) (k : String) : List (String × Prompt) :=
  m.filter (fun e => !(e.1 == k))

/-- The state of `PromptDjMidi` relevant to prompt management: the prompt
map and the `nextCC` counter. -/
structure DjState where
  prompts : List (String × Prompt)
  nextCC : ℕ

/-- `PromptDjMidi.handleAddPrompt`: a no-op when the selected text is empty,
already a key of the prompt map, or absent from the palette; otherwise it
creates a prompt with weight 0, CC number `nextCC` (post-incrementing the
counter), the palette color bound to the name, and the container-center
position, and inserts it under its name. -/
def handleAddPrompt (s : DjState) (allPrompts : List DefaultPrompt)
    (text : String) (cx cy : ℚ) : DjState :=
  if text = "" ∨ mapHas s.prompts text then s
  else
    match allPrompts.find? (fun p => p.text == text) with
    | none => s
    | some dp =>
      let newPrompt : Prompt :=
        { promptId := text, text := text, weight := 0, cc := s.nextCC,
          color := dp.color, x := cx, y := cy }
      { prompts := mapSet s.prompts text newPrompt, nextCC := s.nextCC + 1 }

/-- `PromptDjMidi.handlePromptRemoved`: deletes the entry under the given
prompt id; the CC counter is untouched. -/
def handlePromptRemoved (s : DjState) (promptId : String) : DjState :=
  { s with prompts := mapDelete s.prompts promptId }

/-- Every CC number stored in the prompt map is below the counter; this holds
for the initial state and is preserved by add and remove. -/
def ccInv (s : DjState) : Prop :=
  ∀ e ∈ s.prompts, e.2.cc < s.nextCC

/-- One radial-gradient descriptor produced by `PromptDjMidi.makeBackground`
for an active prompt: the alpha byte is
`Math.round(Math.min(weight, 1) * 0.4 * 255)`, the stop radius factor is
`weight / 2`, and the placement is `20 + rand * 60` on each axis from the two
random samples drawn for the prompt. -/
structure Gradient where
  color : String
  alpha : ℤ
  stop : ℚ
  x : ℚ
  y : ℚ

/-- The gradient `makeBackground` builds for one active prompt from the two
random placement samples. -/
def gradientOf (p : Prompt) (r : ℚ × ℚ) : Gradient :=
  { color := p.color, alpha := jround (min p.weight 1 * 0.4 * 255),
    stop := p.weight / 2, x := 20 + r.1 * 60, y := 20 + r.2 * 60 }

/-- The active prompts of `makeBackground`: those with weight > 0. -/
def activePrompts (ps : List Prompt) : List Prompt :=
  ps.filter (fun p => decide (p.weight > 0))

/-- The body of `PromptDjMidi.makeBackground`: one gradient per active
prompt, with the random placement samples supplied as an explicit stream. -/
def makeBackground (ps : List Prompt) (rand : List (ℚ × ℚ)) : List Gradient :=
  ((activePrompts ps).zip rand).map (fun pr => gradientOf pr.1 pr.2)

/-- The drag-session state of a `PromptController`: the dragging flag, the
captured start coordinates, the current prompt record, and whether the
global window pointer listeners are attached. -/
structure DragState where
  isDragging : Bool
  dragStartX : ℚ
  dragStartY : ℚ
  promptStartX : ℚ
  promptStartY : ℚ
  prompt : Prompt
  windowListeners : Bool

/-- The pointer and lifecycle events a `PromptController` handles during a
drag. Pointer-down carries the client coordinates and whether the click hit
an excluded control region; pointer-move carries the client coordinates, the
optional parent extents and the element half extents; disconnect is removal
of the component from the document. -/
inductive DragEvent where
  | pointerDown (clientX clientY : ℚ) (onControls : Bool)
  | pointerMove (clientX clientY : ℚ) (parent : Option (ℚ × ℚ)) (halfW halfH : ℚ)
  | pointerUp
  | disconnect

/-- One step of the drag state machine (`handlePointerDown`,
`handlePointerMove`, `handlePointerUp`, `disconnectedCallback`), returning
the next state and the list of prompt-changed notifications emitted by the
step. -/
def dragStep (s : DragState) (e : DragEvent) : DragState × List Prompt :=
  match e with
  | .pointerDown cx cy onControls =>
    if onControls then (s, [])
    else
      ({ s with
          isDragging := true
          dragStartX := cx
          dragStartY := cy
          promptStartX := s.prompt.x
          promptStartY := s.prompt.y
          windowListeners := true }, [])
  | .pointerMove cx cy parent halfW halfH =>
    if s.isDragging then
      let newX := s.promptStartX + (cx - s.dragStartX)
      let newY := s.promptStartY + (cy - s.dragStartY)
      let pos := match parent with
        | some (pw, ph) => clampPos newX newY halfW halfH pw ph
        | none => (newX, newY)
      ({ s with prompt := { s.prompt with x := pos.1, y := pos.2 } }, [])
    else (s, [])
  | .pointerUp =>
    if s.isDragging then
      ({ s with isDragging := false, windowListeners := false }, [s.prompt])
    else (s, [])
  | .disconnect => ({ s with windowListeners := false }, [])

/-- A sample prompt used to instantiate witnesses. -/
def bassPrompt : Prompt :=
  { promptId := "Bass", text := "Bass", weight := 1, cc := 2, color := "#9900ff",
    x := 100, y := 100 }

/-- A sample one-prompt collection state used to instantiate witnesses. -/
def sampleState : DjState := { prompts := [("Bass", bassPrompt)], nextCC := 3 }

/-- A sample palette used to instantiate witnesses. -/
def samplePalette : List DefaultPrompt :=
  [{ color := "#9900ff", text := "Bass" }, { color := "#5200ff", text := "Drums" }]

/-- A sample mid-drag state used to instantiate witnesses. -/
def sampleDrag : DragState :=
  { isDragging := true, dragStartX := 10, dragStartY := 10, promptStartX := 100,
    promptStartY := 100, prompt := bassPrompt, windowListeners := true }

end Soundscape

namespace Soundscape

/-- Evaluation rule for `jround` at a concrete integer output. -/
theorem jround_eq (x : ℚ) (z : ℤ) (h1 : (z : ℚ) ≤ x + 1/2) (h2 : x + 1/2 < z + 1) :
    jround x = z := by
  rw [jround]
  exact Int.floor_eq_iff.mpr ⟨h1, h2⟩

/-- Rounding an exact integer returns it unchanged. -/
theorem jround_intCast (z : ℤ) : jround (z : ℚ) = z := by
  refine jround_eq _ z (by linarith) (by linarith)

/-- Both bounds of a single clamped axis when the element fits the
container. -/
theorem clampAxis_bounds (req half extent : ℚ) (h : half + half ≤ extent) :
    half ≤ clampAxis req half extent ∧ clampAxis req half extent ≤ extent - half := by
  refine ⟨le_max_left _ _, max_le (by linarith) (min_le_right _ _)⟩

/-- A request far beyond the container clamps to the upper bound. -/
theorem clampAxis_eval_hi : clampAxis 5000 50 1000 = 950 := by
  rw [clampAxis, show (1000:ℚ) - 50 = 950 by norm_num,
    min_eq_right (by norm_num), max_eq_right (by norm_num)]

/-- A request far before the container clamps to the lower bound. -/
theorem clampAxis_eval_lo : clampAxis (-200) 50 1000 = 50 := by
  rw [clampAxis, show (1000:ℚ) - 50 = 950 by norm_num,
    min_eq_left (by norm_num), max_eq_left (by norm_num)]

/-- Looking up a key just deleted from the map yields nothing. -/
theorem mapGet_delete_self (m : List (String × Prompt)) (k : String) :
    mapGet (mapDelete m k) k = none := by
  induction m with
  | nil => rfl
  | cons e m ih =>
    rw [mapDelete, List.filter_cons]
    rcases hek : e.1 == k with _ | _
    · rw [if_pos (by decide)]
      rw [mapGet, List.find?, hek]
      exact ih
    · rw [if_neg (by decide)]
      exact ih

/-- Appending a fresh key to a map that lacks it makes lookup return the new
value. -/
theorem mapGet_append_self (m : List (String × Prompt)) (k : String) (v : Prompt)
    (h : mapHas m k = false) : mapGet (m ++ [(k, v)]) k = some v := by
  induction m with
  | nil => simp [mapGet, List.find?]
  | cons e m ih =>
    rw [mapHas, List.any_cons] at h
    rcases hek : e.1 == k with _ | _
    · rw [List.cons_append]
      have hm : mapHas m k = false := by
        rcases hmk : m.any (fun e => e.1 == k) with _ | _
        · rw [mapHas]; exact hmk
        · rw [hek, hmk] at h; simp at h
      simpa [mapGet, List.find?, hek] using ih hm
    · rw [hek] at h; simp at h

/-- A successful lookup returns a value stored in the map. -/
theorem mem_of_mapGet (m : List (String × Prompt)) (k : String) (p : Prompt)
    (h : mapGet m k = some p) : ∃ e ∈ m, e.2 = p := by
  induction m with
  | nil => simp [mapGet, List.find?] at h
  | cons e m ih =>
    rcases hek : e.1 == k with _ | _
    · rw [mapGet, List.find?] at h
      rw [hek] at h
      obtain ⟨f, hf, hfp⟩ := ih h
      exact ⟨f, List.mem_cons_of_mem _ hf, hfp⟩
    · rw [mapGet, List.find?] at h
      rw [hek] at h
      simp at h
      exact ⟨e, List.mem_cons_self _ _, h⟩

/-- The CC invariant is preserved by `handlePromptRemoved`. -/
theorem ccInv_remove (s : DjState) (hinv : ccInv s) (name : String) :
    ccInv (handlePromptRemoved s name) := by
  intro e he
  exact hinv e (List.mem_of_mem_filter he)

/-- Inserting with `mapSet` only produces the stored entries or the new
entry. -/
theorem mem_mapSet (m : List (String × Prompt)) (k : String) (v : Prompt)
    (e : String × Prompt) (he : e ∈ mapSet m k v) : e ∈ m ∨ e = (k, v) := by
  rw [mapSet] at he
  split at he
  · obtain ⟨f, hf, hfe⟩ := List.mem_map.mp he
    by_cases hfk : (f.1 == k) = true
    · rw [if_pos hfk] at hfe
      exact Or.inr hfe.symm
    · rw [if_neg hfk] at hfe
      exact Or.inl (hfe ▸ hf)
  · rcases List.mem_append.mp he with hm | hm
    · exact Or.inl hm
    · exact Or.inr (List.mem_singleton.mp hm)

/-- The CC invariant is preserved by `handleAddPrompt`. -/
theorem ccInv_add (s : DjState) (hinv : ccInv s) (ap : List DefaultPrompt)
    (text : String) (cx cy : ℚ) : ccInv (handleAddPrompt s ap text cx cy) := by
  rw [handleAddPrompt]
  split
  · exact hinv
  · split
    · exact hinv
    · intro e he
      rcases mem_mapSet _ _ _ _ he with hm | hm
      · exact Nat.lt_succ_of_lt (hinv e hm)
      · rw [hm]
        exact Nat.lt_succ_self _

/-- C1: for every level in {0,1,2,3,4,5}, converting the level to a weight
with `levelToWeight` (weight = level / 2.5) and converting that weight back
with `weightToLevel` (round(weight * 2.5)) returns the original level. -/
theorem C1_level_weight_roundtrip (level : ℤ) (h0 : 0 ≤ level) (h5 : level ≤ 5) :
    weightToLevel (levelToWeight level) = level := by
  have h25 : (2.5 : ℚ) ≠ 0 := by norm_num
  rw [weightToLevel, levelToWeight, div_mul_cancel₀ _ h25]
  exact jround_intCast level

/-- Witness for C1 at level 3. -/
theorem C1_level_weight_roundtrip_witness :
    weightToLevel (levelToWeight 3) = 3 :=
  C1_level_weight_roundtrip 3 (by decide) (by decide)

/-- C2 counterexample: with container extent 100 and element half extent 150
(half extent greater than the container extent), the clamp on that axis pins
the coordinate to 150 — the element half extent — which is not the midpoint
50 of the container, so the claim as stated is false. -/
theorem C2_counterexample :
    clampAxis 10 150 100 = 150 ∧ ¬ clampAxis 10 150 100 = 100 / 2 := by
  have h : clampAxis 10 150 100 = 150 := by
    rw [clampAxis, show (100:ℚ) - 150 = -50 by norm_num,
      min_eq_right (by norm_num), max_eq_left (by norm_num)]
  exact ⟨h, by rw [h]; norm_num⟩

/-- C2 amended: when the element half extent exceeds the container extent on
an axis (half extents being non-negative), the clamp is total (never fails)
and deterministically pins the coordinate on that axis to the element half
extent, independently of the requested coordinate. -/
theorem C2_clamp_degenerate (req half extent : ℚ) (h0 : 0 ≤ half)
    (h : extent < half) : clampAxis req half extent = half := by
  have hmin : min req (extent - half) ≤ half :=
    le_trans (min_le_right _ _) (by linarith)
  exact max_eq_left hmin

/-- Witness for the amended C2 at request 10, half extent 150, container
extent 100. -/
theorem C2_clamp_degenerate_witness : clampAxis 10 150 100 = 150 :=
  C2_clamp_degenerate 10 150 100 (by norm_num) (by norm_num)

/-- C3: whenever the element half extents do not exceed half the container
extents, the clamped position lies within
[halfW, containerWidth - halfW] × [halfH, containerHeight - halfH]; in
particular, with a 1000×1000 container and half extent 50, a request of
(5000, 5000) clamps to (950, 950) and a request of (-200, -200) clamps to
(50, 50). -/
theorem C3_clamp_in_bounds (reqX reqY halfW halfH cw ch : ℚ)
    (hw : halfW + halfW ≤ cw) (hh : halfH + halfH ≤ ch) :
    (halfW ≤ (clampPos reqX reqY halfW halfH cw ch).1 ∧
      (clampPos reqX reqY halfW halfH cw ch).1 ≤ cw - halfW ∧
      halfH ≤ (clampPos reqX reqY halfW halfH cw ch).2 ∧
      (clampPos reqX reqY halfW halfH cw ch).2 ≤ ch - halfH) ∧
    clampPos 5000 5000 50 50 1000 1000 = (950, 950) ∧
    clampPos (-200) (-200) 50 50 1000 1000 = (50, 50) := by
  obtain ⟨hx1, hx2⟩ := clampAxis_bounds reqX halfW cw hw
  obtain ⟨hy1, hy2⟩ := clampAxis_bounds reqY halfH ch hh
  exact ⟨⟨hx1, hx2, hy1, hy2⟩,
    by rw [clampPos, clampAxis_eval_hi],
    by rw [clampPos, clampAxis_eval_lo]⟩

/-- Witness for C3 at a request of (30, 990) in a 1000×800 container with
half extents 50 and 40. -/
theorem C3_clamp_in_bounds_witness :
    (50 ≤ (clampPos 30 990 50 40 1000 800).1 ∧
      (clampPos 30 990 50 40 1000 800).1 ≤ 1000 - 50 ∧
      40 ≤ (clampPos 30 990 50 40 1000 800).2 ∧
      (clampPos 30 990 50 40 1000 800).2 ≤ 800 - 40) ∧
    clampPos 5000 5000 50 50 1000 1000 = (950, 950) ∧
    clampPos (-200) (-200) 50 50 1000 1000 = (50, 50) :=
  C3_clamp_in_bounds 30 990 50 40 1000 800 (by norm_num) (by norm_num)

/-- C4: the halo scale is 1 and the halo hidden when level = 0; for level ≥ 1
the scale is 1 + ((level-1)/4) * 1.2 + audioLevel * 1; a filtered prompt has
audioLevel forced to 0 in this computation, so a filtered prompt at level 3
with true audioLevel 0.9 has halo scale 1.6. -/
theorem C4_halo_scale (a b : ℚ) (level : ℤ) (h1 : 1 ≤ level) :
    (haloScale 0 a = 1 ∧ haloDisplay 0 = "none") ∧
    haloScale level b = 1 + (((level : ℚ) - 1) / 4) * 1.2 + b * 1 ∧
    (∀ lv : ℤ, ∀ x : ℚ, haloScale lv (controllerAudioLevel true x) = haloScale lv 0) ∧
    haloScale 3 (controllerAudioLevel true 0.9) = 1.6 := by
  have hforce : ∀ x : ℚ, controllerAudioLevel true x = 0 := by
    intro x; rfl
  refine ⟨⟨?_, rfl⟩, ?_, ?_, ?_⟩
  · simp [haloScale, MIN_HALO_SCALE]
  · rw [haloScale, if_pos (by omega : (0:ℤ) < level)]
    rw [MIN_HALO_SCALE, MAX_HALO_SCALE, HALO_LEVEL_MODIFIER]
    norm_num
  · intro lv x; rw [hforce x]
  · rw [hforce, haloScale, if_pos (by omega : (0:ℤ) < 3)]
    rw [MIN_HALO_SCALE, MAX_HALO_SCALE, HALO_LEVEL_MODIFIER]
    norm_num

/-- Witness for C4 at level 2 with audio levels 0.3 and 0.7. -/
theorem C4_halo_scale_witness :
    (haloScale 0 0.3 = 1 ∧ haloDisplay 0 = "none") ∧
    haloScale 2 0.7 = 1 + (((2 : ℤ) : ℚ) - 1) / 4 * 1.2 + 0.7 * 1 ∧
    (∀ lv : ℤ, ∀ x : ℚ, haloScale lv (controllerAudioLevel true x) = haloScale lv 0) ∧
    haloScale 3 (controllerAudioLevel true 0.9) = 1.6 :=
  C4_halo_scale 0.3 0.7 2 (by decide)

/-- C5: adding is a no-op when the name is empty or already a key: adding
with an empty name returns the state unchanged, and when a prompt named Bass
is already present, adding Bass again leaves the collection size unchanged
and leaves the cc of the existing Bass prompt unchanged. -/
theorem C5_add_noop (s : DjState) (ap : List DefaultPrompt) (cx cy : ℚ)
    (hBass : mapHas s.prompts "Bass" = true) :
    handleAddPrompt s ap "" cx cy = s ∧
    (handleAddPrompt s ap "Bass" cx cy).prompts.length = s.prompts.length ∧
    (mapGet (handleAddPrompt s ap "Bass" cx cy).prompts "Bass").map Prompt.cc
      = (mapGet s.prompts "Bass").map Prompt.cc := by
  have hempty : handleAddPrompt s ap "" cx cy = s := by
    rw [handleAddPrompt, if_pos (Or.inl rfl)]
  have hdup : handleAddPrompt s ap "Bass" cx cy = s := by
    rw [handleAddPrompt, if_pos (Or.inr hBass)]
  exact ⟨hempty, by rw [hdup], by rw [hdup]⟩

/-- Witness for C5 on a collection already holding Bass. -/
theorem C5_add_noop_witness :
    handleAddPrompt sampleState samplePalette "" 500 325 = sampleState ∧
    (handleAddPrompt sampleState samplePalette "Bass" 500 325).prompts.length
      = sampleState.prompts.length ∧
    (mapGet (handleAddPrompt sampleState samplePalette "Bass" 500 325).prompts
        "Bass").map Prompt.cc = (mapGet sampleState.prompts "Bass").map Prompt.cc :=
  C5_add_noop sampleState samplePalette 500 325 (by decide)

/-- C6: CC numbers come from a monotonically increasing counter and are never
reused: starting from any state whose stored CC numbers are all below the
counter, removing a prompt and then successfully re-adding a prompt under the
same name yields a prompt whose cc is strictly greater than the cc of the
removed prompt. -/
theorem C6_cc_never_reused (s : DjState) (hinv : ccInv s) (name : String)
    (p : Prompt) (hp : mapGet s.prompts name = some p) (ap : List DefaultPrompt)
    (cx cy : ℚ) (q : Prompt)
    (hq : mapGet (handleAddPrompt (handlePromptRemoved s name) ap name cx cy).prompts
      name = some q) : p.cc < q.cc := by
  obtain ⟨e, he, hep⟩ := mem_of_mapGet _ _ _ hp
  have hpcc : p.cc < s.nextCC := hep ▸ hinv e he
  have hdel : (handlePromptRemoved s name).prompts = mapDelete s.prompts name := rfl
  by_cases hc : name = "" ∨ mapHas (handlePromptRemoved s name).prompts name
  · rw [handleAddPrompt, if_pos hc, hdel, mapGet_delete_self] at hq
    exact absurd hq (by simp)
  · rcases hfind : ap.find? (fun dp => dp.text == name) with _ | dp
    · rw [handleAddPrompt, if_neg hc, hfind, hdel, mapGet_delete_self] at hq
      exact absurd hq (by simp)
    · have hhas : mapHas (handlePromptRemoved s name).prompts name = false := by
        rcases h2 : mapHas (handlePromptRemoved s name).prompts name with _ | _
        · rfl
        · exact absurd (Or.inr h2) hc
      have hstep : handleAddPrompt (handlePromptRemoved s name) ap name cx cy =
          { prompts := mapSet (handlePromptRemoved s name).prompts name
              { promptId := name, text := name, weight := 0,
                cc := (handlePromptRemoved s name).nextCC, color := dp.color,
                x := cx, y := cy },
            nextCC := (handlePromptRemoved s name).nextCC + 1 } := by
        rw [handleAddPrompt, if_neg hc, hfind]
      rw [hstep, mapSet, if_neg (by rw [hhas]; simp)] at hq
      rw [mapGet_append_self _ _ _ hhas] at hq
      have hqeq : q.cc = (handlePromptRemoved s name).nextCC := by
        cases hq2 : q
        rw [hq2] at hq
        injection hq with hq3
        rw [← hq3]
      have hnext : (handlePromptRemoved s name).nextCC = s.nextCC := rfl
      rw [hqeq, hnext]
      exact hpcc

/-- Witness for C6: remove Bass (cc 2) from the sample state and re-add it;
the new prompt gets cc 3. -/
theorem C6_cc_never_reused_witness : bassPrompt.cc <
    (Prompt.mk "Bass" "Bass" 0 3 "#9900ff" 500 325).cc :=
  C6_cc_never_reused sampleState
    (by
      intro e he
      have h : e = ("Bass", bassPrompt) := by simpa [sampleState] using he
      rw [h]
      decide)
    "Bass" bassPrompt rfl
    samplePalette 500 325 (Prompt.mk "Bass" "Bass" 0 3 "#9900ff" 500 325) rfl

/-- C8: the background computation excludes every prompt with weight 0
regardless of its other fields, and the alpha byte saturates at weight 1:
prompts of weight 1 and weight 2 receive exactly the same alpha. -/
theorem C8_background_weights (ps : List Prompt) (rand : List (ℚ × ℚ))
    (p p1 p2 : Prompt) (r1 r2 : ℚ × ℚ)
    (hp : p.weight = 0) (h1 : p1.weight = 1) (h2 : p2.weight = 2) :
    makeBackground (p :: ps) rand = makeBackground ps rand ∧
    (gradientOf p1 r1).alpha = (gradientOf p2 r2).alpha := by
  constructor
  · have hfilt : decide (p.weight > 0) = false := by
      rw [hp]
      exact decide_eq_false (by norm_num)
    rw [makeBackground, makeBackground, activePrompts, activePrompts,
      List.filter_cons, hfilt]
    simp
  · simp only [gradientOf]
    rw [h1, h2, min_self, min_eq_right (by norm_num : (1:ℚ) ≤ 2)]

/-- Witness for C8 with concrete weight-0, weight-1 and weight-2 prompts. -/
theorem C8_background_weights_witness :
    makeBackground (Prompt.mk "Pads" "Pads" 0 4 "#ff25f6" 1 2 :: []) [(0.5, 0.5)]
      = makeBackground [] [(0.5, 0.5)] ∧
    (gradientOf (Prompt.mk "Bass" "Bass" 1 2 "#9900ff" 3 4) (0.1, 0.2)).alpha
      = (gradientOf (Prompt.mk "Drums" "Drums" 2 3 "#5200ff" 5 6) (0.3, 0.4)).alpha :=
  C8_background_weights [] [(0.5, 0.5)] (Prompt.mk "Pads" "Pads" 0 4 "#ff25f6" 1 2)
    (Prompt.mk "Bass" "Bass" 1 2 "#9900ff" 3 4)
    (Prompt.mk "Drums" "Drums" 2 3 "#5200ff" 5 6) (0.1, 0.2) (0.3, 0.4) rfl rfl rfl

/-- C9: while dragging, a pointer-move recomputes the clamped position and
emits no prompt-changed notification; pointer-up emits exactly one
notification carrying the final position and releases the window listeners;
disconnecting the component releases the window listeners without emitting
any notification. -/
theorem C9_drag_protocol (s : DragState) (hd : s.isDragging = true)
    (cx cy halfW halfH pw ph : ℚ) :
    ((dragStep s (.pointerMove cx cy (some (pw, ph)) halfW halfH)).2 = [] ∧
      (dragStep s (.pointerMove cx cy (some (pw, ph)) halfW halfH)).1.prompt.x
        = clampAxis (s.promptStartX + (cx - s.dragStartX)) halfW pw ∧
      (dragStep s (.pointerMove cx cy (some (pw, ph)) halfW halfH)).1.prompt.y
        = clampAxis (s.promptStartY + (cy - s.dragStartY)) halfH ph) ∧
    ((dragStep s .pointerUp).2 = [s.prompt] ∧
      (dragStep s .pointerUp).1.isDragging = false ∧
      (dragStep s .pointerUp).1.windowListeners = false) ∧
    ((dragStep s .disconnect).2 = [] ∧
      (dragStep s .disconnect).1.windowListeners = false) := by
  refine ⟨⟨?_, ?_, ?_⟩, ⟨?_, ?_, ?_⟩, ?_, ?_⟩ <;>
    simp [dragStep, hd, clampPos]

/-- Witness for C9 on a concrete mid-drag state. -/
theorem C9_drag_protocol_witness :
    ((dragStep sampleDrag (.pointerMove 20 30 (some (1000, 800)) 50 40)).2 = [] ∧
      (dragStep sampleDrag (.pointerMove 20 30 (some (1000, 800)) 50 40)).1.prompt.x
        = clampAxis (sampleDrag.promptStartX + (20 - sampleDrag.dragStartX)) 50 1000 ∧
      (dragStep sampleDrag (.pointerMove 20 30 (some (1000, 800)) 50 40)).1.prompt.y
        = clampAxis (sampleDrag.promptStartY + (30 - sampleDrag.dragStartY)) 40 800) ∧
    ((dragStep sampleDrag .pointerUp).2 = [sampleDrag.prompt] ∧
      (dragStep sampleDrag .pointerUp).1.isDragging = false ∧
      (dragStep sampleDrag .pointerUp).1.windowListeners = false) ∧
    ((dragStep sampleDrag .disconnect).2 = [] ∧
      (dragStep sampleDrag .disconnect).1.windowListeners = false) :=
  C9_drag_protocol sampleDrag rfl 20 30 50 40 1000 800

/-- C10: clicking dot i of the level selector when the current level equals i
emits a level-changed event with value 0 (toggle off); clicking dot i from
any other current level emits value i. -/
theorem C10_dot_click (i L : ℤ) (h1 : 1 ≤ i) (h5 : i ≤ 5) :
    dotClickEvents i i = [0] ∧ (L ≠ i → dotClickEvents L i = [i]) := by
  constructor
  · simp [dotClickEvents, dotClickLevel, selectLevelEvents]
  · intro h
    simp [dotClickEvents, dotClickLevel, selectLevelEvents, h]

/-- Witness for C10 at dot 2 with other current level 3. -/
theorem C10_dot_click_witness :
    dotClickEvents 2 2 = [0] ∧ ((3:ℤ) ≠ 2 → dotClickEvents 3 2 = [2]) :=
  C10_dot_click 2 3 (by decide) (by decide)

/-- C7: ccToLevel maps every ccValue in {0..127} to a level in {0..5};
in particular ccToLevel 0 = 0 and ccToLevel 127 = 5. -/
theorem C7_ccToLevel_range (v : ℤ) (h0 : 0 ≤ v) (h127 : v ≤ 127) :
    (0 ≤ ccToLevel v ∧ ccToLevel v ≤ 5) ∧ ccToLevel 0 = 0 ∧ ccToLevel 127 = 5 := by
  have hv0 : (0 : ℚ) ≤ (v : ℚ) := by exact_mod_cast h0
  have hv127 : (v : ℚ) ≤ 127 := by exact_mod_cast h127
  refine ⟨⟨?_, ?_⟩, ?_, ?_⟩
  · rw [ccToLevel, jround]
    rw [Int.le_floor]
    have : (0 : ℚ) ≤ (v : ℚ) / 127 * 5 := by positivity
    push_cast
    linarith
  · rw [ccToLevel, jround]
    have h6 : (⌊(v : ℚ) / 127 * 5 + 1/2⌋ : ℤ) < 6 := by
      rw [Int.floor_lt]
      have hdiv : (v : ℚ) / 127 ≤ 1 := by
        rw [div_le_one (by norm_num : (0:ℚ) < 127)]
        exact hv127
      push_cast
      nlinarith
    omega
  · refine jround_eq _ 0 (by norm_num) (by norm_num)
  · refine jround_eq _ 5 (by norm_num) (by norm_num)

/-- Witness for C7 at ccValue 64. -/
theorem C7_ccToLevel_range_witness :
    (0 ≤ ccToLevel 64 ∧ ccToLevel 64 ≤ 5) ∧ ccToLevel 0 = 0 ∧ ccToLevel 127 = 5 :=
  C7_ccToLevel_range 64 (by decide) (by decide)

end Soundscape
